import Mathlib

/-!
Shallow embedding of `src/anomaly_toolbox/models/descargan.py` (the DeScarGAN
generator and discriminator architectures).

Tensors are represented by their shapes: a `List Nat` with one entry per
dimension, in NHWC order for images.  Every Keras layer constructed by the
source file is represented by a `Layer` value carrying its configuration; the
parameterised layers (`Conv2D`, `BatchNormalization`, `Conv2DTranspose`,
`Dense`) additionally carry a parameter id `pid` standing for the identity of
the fresh learnable-variable set allocated when the layer object is
constructed; construction order threads a counter through the `__init__`
embeddings, so distinct layer constructions receive distinct ids.  A Keras
`Sequential`'s children are `Child` values (either a nested `Sequential`,
i.e. a block returned by `conv`/`deconv`, or a bare layer).

Shape evaluation (`applyLayer`) returns `none` exactly where TensorFlow
raises a shape error: a built `Conv2D` (all of them are built eagerly in the
source, since `input_shape` is always passed) rejects an input whose channel
count differs from the declared one; `tf.concat` rejects inputs disagreeing
outside the concatenation axis; `tf.squeeze` with explicit axes rejects axes
whose extent is not 1.  `MaxPool2D` (pool 2, stride 2, `valid` padding) maps
an extent `h` to `h / 2` (this equals TensorFlow's `floor((h - 2) / 2) + 1`
for every natural `h`, including the degenerate `h < 2` cases, which yield an
empty dimension rather than an error); `UpSampling2D` doubles the spatial
extents; a `SAME`, stride-1 convolution preserves them.
-/

namespace DeScarGAN

/-- Activation functions appearing in the source: `k.layers.ReLU`,
`k.activations.tanh` and `tf.identity`. -/
inductive Act
  | relu
  | tanh
  | identity
deriving DecidableEq

/-- The primitive Keras/TF layers constructed by `descargan.py`, with their
shape-relevant configuration.  `pid` is the parameter id of the layer's
learnable variables (see the module docstring). -/
inductive Layer
  | conv2d (pid inChannels filters kernelSize : Nat) (useBias : Bool)
  | batchNorm (pid : Nat) (momentum : ℚ)
  | activation (fn : Act)
  | upSampling2d
  | maxPool2d
  | conv2dTranspose (pid inChannels filters kernelSize strides : Nat)
  | dense (pid units : Nat)
  | flatten
  | dropout (rate : ℚ)
deriving DecidableEq

/-- One child of a Keras `Sequential`: either a nested `Sequential` block (as
returned by `DeScarGANModel.conv` / the inner upsample block of `deconv`) or
a bare layer. -/
inductive Child
  | seq (layers : List Layer)
  | lay (l : Layer)
deriving DecidableEq

/-- Which class-conditioned output head a forward pass routes through. -/
inductive Head
  | ill
  | healthy
deriving DecidableEq

/-- Shape semantics of a single layer; `none` is a TensorFlow shape error. -/
def applyLayer : Layer → List Nat → Option (List Nat)
  | Layer.conv2d _ inC f _ _, [b, h, w, c] =>
      if c = inC then some [b, h, w, f] else none
  | Layer.conv2d _ _ _ _ _, _ => none
  | Layer.batchNorm _ _, s => some s
  | Layer.activation _, s => some s
  | Layer.upSampling2d, [b, h, w, c] => some [b, 2 * h, 2 * w, c]
  | Layer.upSampling2d, _ => none
  | Layer.maxPool2d, [b, h, w, c] => some [b, h / 2, w / 2, c]
  | Layer.maxPool2d, _ => none
  | Layer.conv2dTranspose _ inC f _ st, [b, h, w, c] =>
      if c = inC then some [b, st * h, st * w, f] else none
  | Layer.conv2dTranspose _ _ _ _ _, _ => none
  | Layer.dense _ _, [] => none
  | Layer.dense _ _, [_] => none
  | Layer.dense _ u, s => some (s.dropLast ++ [u])
  | Layer.flatten, [] => none
  | Layer.flatten, b :: rest => some [b, rest.prod]
  | Layer.dropout _, s => some s

/-- Shape semantics of a `Sequential`'s flat layer list. -/
def applySeq : List Layer → List Nat → Option (List Nat)
  | [], s => some s
  | l :: ls, s => (applyLayer l s).bind (applySeq ls)

/-- Shape semantics of one `Sequential` child. -/
def applyChild : Child → List Nat → Option (List Nat)
  | Child.seq ls, s => applySeq ls s
  | Child.lay l, s => applyLayer l s

/-- Shape semantics of a `Sequential` given by its children. -/
def applyChildren : List Child → List Nat → Option (List Nat)
  | [], s => some s
  | c :: cs, s => (applyChild c s).bind (applyChildren cs)

/-- `DeScarGANModel.concat`: shape semantics of
`tf.concat([upsampled, bypass], axis=-1)`.  Requires equal ranks and equal
extents on every axis but the last; the last extents add. -/
def DeScarGANModel.concat : List Nat → List Nat → Option (List Nat)
  | [], _ => none
  | _, [] => none
  | [a], [b] => some [a + b]
  | a :: as, b :: bs =>
      if a = b then (DeScarGANModel.concat as bs).map (a :: ·) else none

/-- Shape semantics of `tf.squeeze(t, axis=[1, 2])` on a rank-4 tensor:
axes 1 and 2 must have extent 1 and are removed. -/
def squeeze12 : List Nat → Option (List Nat)
  | [b, h, w, c] => if h = 1 ∧ w = 1 then some [b, c] else none
  | _ => none

/-- The branch predicate and two-way dispatch
`tf.cond(tf.reduce_all(tf.equal(ill_label, tf.cast(label, tf.int32))), ill, healthy)`
shared verbatim by `Generator.call` and `Discriminator.call`.  Labels are
modelled as `Int` (the `int32` cast is value-preserving for class labels). -/
def selectBranch (illLabel : Int) (label : List Int) : Head :=
  if label.all (fun l => illLabel == l) then Head.ill else Head.healthy

/-- `DeScarGANModel.conv`, translated with the source's exact conditional
structure.  The Python return expression is

`k.Sequential([Conv2D(...)] + [BatchNormalization(momentum)] if self._batch_norm else [] + [activation_fn()])`

which, by Python conditional-expression precedence, parses as
`([Conv2D(...)] + [BatchNorm]) if batch_norm else ([] + [activation_fn()])`.
Returns the block's layer list together with the next free parameter id. -/
def DeScarGANModel.conv (batchNorm : Bool) (pid : Nat) (inputChannels filters : Nat)
    (kernelSize : Nat := 3) (momentum : ℚ := 1 / 100) (activation_fn : Act := Act.relu) :
    List Layer × Nat :=
  if batchNorm then
    ([Layer.conv2d pid inputChannels filters kernelSize (!batchNorm),
      Layer.batchNorm (pid + 1) momentum], pid + 2)
  else
    ([] ++ [Layer.activation activation_fn], pid)

/-- `DeScarGANModel.deconv`: either an `UpSampling2D` followed by a stride-1
3×3 `SAME` convolution (default) or a `Conv2DTranspose`, unconditionally
followed by batch normalization and the activation. -/
def DeScarGANModel.deconv (pid : Nat) (inputChannels filters : Nat)
    (use_upsample : Bool := true) (kernelSize : Nat := 4) (strides : Nat := 2)
    (momentum : ℚ := 1 / 100) (activation_fn : Act := Act.relu) :
    List Child × Nat :=
  let up := if use_upsample then
      Child.seq [Layer.upSampling2d, Layer.conv2d pid inputChannels filters 3 true]
    else
      Child.lay (Layer.conv2dTranspose pid inputChannels filters kernelSize strides)
  ([up, Child.lay (Layer.batchNorm (pid + 1) momentum),
    Child.lay (Layer.activation activation_fn)], pid + 2)

/-- The layer graph owned by a `Generator` instance (field names follow the
source's attributes, minus the leading underscore). -/
structure Generator where
  illLabel : Int
  cDim : Nat
  down0 : List Child
  down1 : List Child
  down2 : List Child
  down3 : List Child
  up3 : List Child
  conv5 : List Child
  up2 : List Child
  conv6 : List Child
  up1 : List Child
  conv7_ill : List Child
  conv7_healty : List Child
deriving DecidableEq

/-- `Generator.__init__`, constructing blocks in source order while threading
the parameter-id counter. -/
def Generator.init (illLabel : Int) (nChannels : Nat := 1) (nf : Nat := 64)
    (batchNorm : Bool := true) : Generator :=
  let cD := 2
  let p := 0
  let (b00, p) := DeScarGANModel.conv batchNorm p (nChannels + cD) nf
  let (b01, p) := DeScarGANModel.conv batchNorm p nf nf
  let (b10, p) := DeScarGANModel.conv batchNorm p nf (nf * 2)
  let (b11, p) := DeScarGANModel.conv batchNorm p (nf * 2) (nf * 2)
  let (b20, p) := DeScarGANModel.conv batchNorm p (nf * 2) (nf * 4)
  let (b21, p) := DeScarGANModel.conv batchNorm p (nf * 4) (nf * 4)
  let (b30, p) := DeScarGANModel.conv batchNorm p (nf * 4) (nf * 8)
  let (b31, p) := DeScarGANModel.conv batchNorm p (nf * 8) (nf * 8)
  let (u3, p) := DeScarGANModel.deconv p (nf * 8) (nf * 4)
  let (c50, p) := DeScarGANModel.conv batchNorm p (nf * 8) (nf * 4)
  let (c51, p) := DeScarGANModel.conv batchNorm p (nf * 4) (nf * 4)
  let (u2, p) := DeScarGANModel.deconv p (nf * 4) (nf * 2)
  let (c60, p) := DeScarGANModel.conv batchNorm p (nf * 4) (nf * 2)
  let (c61, p) := DeScarGANModel.conv batchNorm p (nf * 2) (nf * 2)
  let (u1, p) := DeScarGANModel.deconv p (nf * 2) nf
  let (c7i0, p) := DeScarGANModel.conv batchNorm p nf nf
  let (c7i1, p) := DeScarGANModel.conv batchNorm p nf nChannels 3 (1 / 100) Act.tanh
  let (c7h0, p) := DeScarGANModel.conv batchNorm p nf nf
  let (c7h1, _) := DeScarGANModel.conv batchNorm p nf nChannels 3 (1 / 100) Act.tanh
  { illLabel := illLabel
    cDim := cD
    down0 := [Child.seq b00, Child.seq b01]
    down1 := [Child.lay Layer.maxPool2d, Child.seq b10, Child.seq b11]
    down2 := [Child.lay Layer.maxPool2d, Child.seq b20, Child.seq b21]
    down3 := [Child.lay Layer.maxPool2d, Child.seq b30, Child.seq b31]
    up3 := u3
    conv5 := [Child.seq c50, Child.seq c51]
    up2 := u2
    conv6 := [Child.seq c60, Child.seq c61]
    up1 := u1
    conv7_ill := [Child.seq c7i0, Child.seq c7i1]
    conv7_healty := [Child.seq c7h0, Child.seq c7h1] }

/-- The intermediate tensors of one `Generator.call`, one field per local of
the source method, plus the selected output head. -/
structure GenTrace where
  xc : List Nat
  input_0 : List Nat
  input_1 : List Nat
  input_2 : List Nat
  input_3 : List Nat
  input_upsampled_3 : List Nat
  cat3 : List Nat
  input_5 : List Nat
  input_upsampled_2 : List Nat
  cat2 : List Nat
  input_6 : List Nat
  input_upsampled_1 : List Nat
  head : Head
  out : List Nat
deriving DecidableEq

/-- `Generator.call` at shape level, keeping every intermediate.  The
conditioning prelude (`tf.one_hot` to depth 2, `tf.tile` to the image's
spatial extents, `tf.concat` on the channel axis) gives a condition tensor of
shape `[len label, h, w, 2]`. -/
def Generator.forwardTrace (g : Generator) (x : List Nat) (label : List Int) :
    Option GenTrace :=
  match x with
  | [b, h, w, c] => do
    let condition := [label.length, h, w, 2]
    let xc ← DeScarGANModel.concat [b, h, w, c] condition
    let input_0 ← applyChildren g.down0 xc
    let input_1 ← applyChildren g.down1 input_0
    let input_2 ← applyChildren g.down2 input_1
    let input_3 ← applyChildren g.down3 input_2
    let input_upsampled_3 ← applyChildren g.up3 input_3
    let cat3 ← DeScarGANModel.concat input_upsampled_3 input_2
    let input_5 ← applyChildren g.conv5 cat3
    let input_upsampled_2 ← applyChildren g.up2 input_5
    let cat2 ← DeScarGANModel.concat input_upsampled_2 input_1
    let input_6 ← applyChildren g.conv6 cat2
    let input_upsampled_1 ← applyChildren g.up1 input_6
    let head := selectBranch g.illLabel label
    let out ← applyChildren
      (match head with
       | Head.ill => g.conv7_ill
       | Head.healthy => g.conv7_healty) input_upsampled_1
    pure ⟨xc, input_0, input_1, input_2, input_3, input_upsampled_3, cat3,
          input_5, input_upsampled_2, cat2, input_6, input_upsampled_1, head, out⟩
  | _ => none

/-- The shape returned by `Generator.call`. -/
def Generator.callShape (g : Generator) (x : List Nat) (label : List Int) :
    Option (List Nat) :=
  (Generator.forwardTrace g x label).map GenTrace.out

/-- The layer graph owned by a `Discriminator` instance. -/
structure Discriminator where
  illLabel : Int
  encoder : List Child
  conv_ill : List Child
  conv_healty : List Child
  conv2 : List Child
  linearclass : List Child
deriving DecidableEq

/-- `Discriminator.__init__`, constructing blocks in source order while
threading the parameter-id counter. -/
def Discriminator.init (illLabel : Int) (nChannels : Nat := 1) (nf : Nat := 64)
    (batchNorm : Bool := true) : Discriminator :=
  let p := 0
  let (e0, p) := DeScarGANModel.conv batchNorm p nChannels nf
  let (e1, p) := DeScarGANModel.conv batchNorm p nf (nf * 2)
  let (e2, p) := DeScarGANModel.conv batchNorm p (nf * 2) (nf * 4)
  let (e3, p) := DeScarGANModel.conv batchNorm p (nf * 4) (nf * 4)
  let (e4, p) := DeScarGANModel.conv batchNorm p (nf * 4) (nf * 8)
  let (e5, p) := DeScarGANModel.conv batchNorm p (nf * 8) (nf * 8)
  let (e6, p) := DeScarGANModel.conv batchNorm p (nf * 8) (nf * 8)
  let (e7, p) := DeScarGANModel.conv batchNorm p (nf * 8) (nf * 8)
  let (e8, p) := DeScarGANModel.conv batchNorm p (nf * 8) (nf * 16)
  let (i0, p) := DeScarGANModel.conv batchNorm p (nf * 16) (nf * 16)
  let (i1, p) := DeScarGANModel.conv batchNorm p (nf * 16) (nf * 16)
  let (i2, p) := DeScarGANModel.conv batchNorm p (nf * 16) 1 1 (1 / 100) Act.identity
  let (h0, p) := DeScarGANModel.conv batchNorm p (nf * 16) (nf * 16)
  let (h1, p) := DeScarGANModel.conv batchNorm p (nf * 16) (nf * 16)
  let (h2, p) := DeScarGANModel.conv batchNorm p (nf * 16) 1 1 (1 / 100) Act.identity
  let (c20, p) := DeScarGANModel.conv batchNorm p (nf * 16) (nf * 16)
  let (c21, p) := DeScarGANModel.conv batchNorm p (nf * 16) (nf * 16)
  { illLabel := illLabel
    encoder := [Child.seq e0, Child.lay Layer.maxPool2d,
                Child.seq e1, Child.lay Layer.maxPool2d,
                Child.seq e2, Child.seq e3, Child.lay Layer.maxPool2d,
                Child.seq e4, Child.seq e5, Child.lay Layer.maxPool2d,
                Child.seq e6, Child.seq e7, Child.lay Layer.maxPool2d,
                Child.seq e8]
    conv_ill := [Child.seq i0, Child.seq i1, Child.seq i2]
    conv_healty := [Child.seq h0, Child.seq h1, Child.seq h2]
    conv2 := [Child.seq c20, Child.seq c21, Child.lay Layer.maxPool2d]
    linearclass := [Child.lay Layer.flatten,
                    Child.lay (Layer.dense p 64),
                    Child.lay (Layer.activation Act.relu),
                    Child.lay (Layer.dropout (1 / 10)),
                    Child.lay (Layer.dense (p + 1) 2)] }

/-- The intermediate tensors of one `Discriminator.call`. -/
structure DiscTrace where
  hidden : List Nat
  head : Head
  out : List Nat
  conv : List Nat
  squeezed : List Nat
  pred : List Nat
deriving DecidableEq

/-- `Discriminator.call` at shape level, keeping every intermediate. -/
def Discriminator.forwardTrace (d : Discriminator) (x : List Nat)
    (label : List Int) : Option DiscTrace := do
  let hidden ← applyChildren d.encoder x
  let head := selectBranch d.illLabel label
  let out ← applyChildren
    (match head with
     | Head.ill => d.conv_ill
     | Head.healthy => d.conv_healty) hidden
  let conv ← applyChildren d.conv2 hidden
  let squeezed ← squeeze12 conv
  let pred ← applyChildren d.linearclass squeezed
  pure ⟨hidden, head, out, conv, squeezed, pred⟩

/-- The pair `(critic score map, classification logits)` returned by
`Discriminator.call`, at shape level. -/
def Discriminator.callShape (d : Discriminator) (x : List Nat)
    (label : List Int) : Option (List Nat × List Nat) :=
  (Discriminator.forwardTrace d x label).map (fun t => (t.out, t.pred))

/-! ### Lazily cached initializers

`DeScarGANModel.__init__` sets `_kernel_initializer = None` and
`_bias_initializer = None`; the `kernel_initializer` / `bias_initializer`
properties construct an initializer object on first access and cache it.
Initializer objects are modelled by a kind plus an allocation id `oid`
standing for object identity; a getter receives the id a fresh construction
would use, so a getter that allocates is visible in its result. -/

/-- The initializer classes instantiated by the two models. -/
inductive InitKind
  | heNormal
  | glorotNormal
  | zeros
deriving DecidableEq

/-- An initializer object: its class and its identity. -/
structure InitObj where
  kind : InitKind
  oid : Nat
deriving DecidableEq

/-- The `_kernel_initializer` / `_bias_initializer` slots of a model. -/
structure InitCache where
  kernelInit : Option InitObj := none
  biasInit : Option InitObj := none
deriving DecidableEq

/-- `Generator.kernel_initializer` (property): `HeNormal`, constructed once
and cached. -/
def Generator.kernelInitializerGet (fresh : Nat) (s : InitCache) :
    InitObj × InitCache :=
  match s.kernelInit with
  | some o => (o, s)
  | none => (⟨InitKind.heNormal, fresh⟩,
             { s with kernelInit := some ⟨InitKind.heNormal, fresh⟩ })

/-- `Generator.bias_initializer` (property): `Zeros`, constructed once and
cached. -/
def Generator.biasInitializerGet (fresh : Nat) (s : InitCache) :
    InitObj × InitCache :=
  match s.biasInit with
  | some o => (o, s)
  | none => (⟨InitKind.zeros, fresh⟩,
             { s with biasInit := some ⟨InitKind.zeros, fresh⟩ })

/-- `Discriminator.kernel_initializer` (property): `GlorotNormal`,
constructed once and cached. -/
def Discriminator.kernelInitializerGet (fresh : Nat) (s : InitCache) :
    InitObj × InitCache :=
  match s.kernelInit with
  | some o => (o, s)
  | none => (⟨InitKind.glorotNormal, fresh⟩,
             { s with kernelInit := some ⟨InitKind.glorotNormal, fresh⟩ })

/-- `Discriminator.bias_initializer` (property): `Zeros`, constructed once
and cached. -/
def Discriminator.biasInitializerGet (fresh : Nat) (s : InitCache) :
    InitObj × InitCache :=
  match s.biasInit with
  | some o => (o, s)
  | none => (⟨InitKind.zeros, fresh⟩,
             { s with biasInit := some ⟨InitKind.zeros, fresh⟩ })

/-! ### Structural helpers for counting blocks and parameters -/

/-- The flat layer list of a `Sequential` child. -/
def Child.layersOf : Child → List Layer
  | Child.seq ls => ls
  | Child.lay l => [l]

/-- Parameter id of a layer, when it owns learnable variables. -/
def Layer.paramId : Layer → Option Nat
  | Layer.conv2d pid _ _ _ _ => some pid
  | Layer.batchNorm pid _ => some pid
  | Layer.conv2dTranspose pid _ _ _ _ => some pid
  | Layer.dense pid _ => some pid
  | _ => none

/-- All parameter ids owned by a `Sequential`'s children. -/
def paramIds (cs : List Child) : List Nat :=
  ((cs.map Child.layersOf).flatten).filterMap Layer.paramId

/-- Erase parameter identity, keeping only layer structure. -/
def Layer.stripId : Layer → Layer
  | Layer.conv2d _ a b c d => Layer.conv2d 0 a b c d
  | Layer.batchNorm _ m => Layer.batchNorm 0 m
  | Layer.conv2dTranspose _ a b c d => Layer.conv2dTranspose 0 a b c d
  | Layer.dense _ u => Layer.dense 0 u
  | l => l

/-- Erase parameter identity in a `Sequential` child. -/
def Child.stripIds : Child → Child
  | Child.seq ls => Child.seq (ls.map Layer.stripId)
  | Child.lay l => Child.lay l.stripId

/-- Number of sub-`Sequential` children (the blocks returned by
`DeScarGANModel.conv`) of a `Sequential`. -/
def convBlockCount (cs : List Child) : Nat :=
  (cs.filter (fun c => match c with
    | Child.seq _ => true
    | Child.lay _ => false)).length

/-- Number of bare `MaxPool2D` children of a `Sequential`. -/
def poolCount (cs : List Child) : Nat :=
  (cs.filter (fun c => match c with
    | Child.lay Layer.maxPool2d => true
    | _ => false)).length

/-- The `filters` arguments of the `Conv2D` layers of a `Sequential`'s
children, in order. -/
def convFilters (cs : List Child) : List Nat :=
  ((cs.map Child.layersOf).flatten).filterMap (fun l => match l with
    | Layer.conv2d _ _ f _ _ => some f
    | _ => none)

/-- Small concrete instances used by closed evaluation theorems. -/
def g4 : Generator := Generator.init 1 1 4 true

/-- Small concrete discriminator instance. -/
def d4 : Discriminator := Discriminator.init 1 1 4 true

/-! ## Lemmas and claim theorems -/

/-- The branch dispatch selects the ill head exactly when every label equals
the configured ill label. -/
theorem selectBranch_eq_ill_iff (illLabel : Int) (label : List Int) :
    selectBranch illLabel label = Head.ill ↔ ∀ l ∈ label, l = illLabel := by
  rw [selectBranch]
  by_cases h : (label.all fun l => illLabel == l) = true
  · rw [if_pos h]
    simp only [List.all_eq_true, beq_iff_eq] at h
    exact iff_of_true rfl fun l hl => (h l hl).symm
  · rw [if_neg h]
    simp only [List.all_eq_true, beq_iff_eq, not_forall] at h
    push_neg at h
    rcases h with ⟨l, hl, hne⟩
    exact iff_of_false (fun hcon => Head.noConfusion hcon)
      fun hall => hne (hall l hl).symm

/-- The branch dispatch selects the healthy head exactly when some label
differs from the configured ill label. -/
theorem selectBranch_eq_healthy_iff (illLabel : Int) (label : List Int) :
    selectBranch illLabel label = Head.healthy ↔ ∃ l ∈ label, l ≠ illLabel := by
  constructor
  · intro h
    by_contra hno
    push_neg at hno
    have hill := (selectBranch_eq_ill_iff illLabel label).2 hno
    rw [hill] at h
    exact Head.noConfusion h
  · rintro ⟨l, hl, hne⟩
    cases hsel : selectBranch illLabel label
    · exact absurd ((selectBranch_eq_ill_iff illLabel label).1 hsel l hl) hne
    · rfl

/-- Eliminate one monadic bind step of a successful `Option` computation. -/
theorem bind_some_elim {α β : Type} {x : Option α} {f : α → Option β} {b : β}
    (h : (x >>= f) = some b) : ∃ a, x = some a ∧ f a = some b := by
  cases x with
  | none => exact Option.noConfusion h
  | some a => exact ⟨a, rfl, h⟩

/-- Whatever the shapes do, the head recorded by a successful
`Generator.forwardTrace` is the one chosen by the branch dispatch. -/
theorem gen_head_of_trace {g : Generator} {x : List Nat} {label : List Int}
    {t : GenTrace} (h : Generator.forwardTrace g x label = some t) :
    t.head = selectBranch g.illLabel label := by
  rcases x with _ | ⟨b, _ | ⟨hh, _ | ⟨w, _ | ⟨c, _ | rest⟩⟩⟩⟩ <;>
    rw [Generator.forwardTrace] at h <;>
    try exact Option.noConfusion h
  obtain ⟨xc, hxc, h⟩ := bind_some_elim h
  obtain ⟨i0, h0, h⟩ := bind_some_elim h
  obtain ⟨i1, h1, h⟩ := bind_some_elim h
  obtain ⟨i2, h2, h⟩ := bind_some_elim h
  obtain ⟨i3, h3, h⟩ := bind_some_elim h
  obtain ⟨u3, hu3, h⟩ := bind_some_elim h
  obtain ⟨c3, hc3, h⟩ := bind_some_elim h
  obtain ⟨i5, h5, h⟩ := bind_some_elim h
  obtain ⟨u2, hu2, h⟩ := bind_some_elim h
  obtain ⟨c2, hc2, h⟩ := bind_some_elim h
  obtain ⟨i6, h6, h⟩ := bind_some_elim h
  obtain ⟨u1, hu1, h⟩ := bind_some_elim h
  obtain ⟨o, ho, h⟩ := bind_some_elim h
  injection h with h
  rw [← h]

/-- Whatever the shapes do, the head recorded by a successful
`Discriminator.forwardTrace` is the one chosen by the branch dispatch. -/
theorem disc_head_of_trace {d : Discriminator} {x : List Nat}
    {label : List Int} {t : DiscTrace}
    (h : Discriminator.forwardTrace d x label = some t) :
    t.head = selectBranch d.illLabel label := by
  rw [Discriminator.forwardTrace] at h
  obtain ⟨hid, hhid, h⟩ := bind_some_elim h
  obtain ⟨o, ho, h⟩ := bind_some_elim h
  obtain ⟨cv, hcv, h⟩ := bind_some_elim h
  obtain ⟨sq, hsq, h⟩ := bind_some_elim h
  obtain ⟨pr, hpr, h⟩ := bind_some_elim h
  injection h with h
  rw [← h]

/-- C3: a successful `Generator.call` or `Discriminator.call` routes through
the ill head exactly when every label in the batch equals the configured ill
label, and through the healthy head exactly when at least one label differs —
a batch-uniform branch, never a per-example one. -/
theorem call_branch_selection (g : Generator) (d : Discriminator)
    (x y : List Nat) (gl dl : List Int)
    (hg : (Generator.forwardTrace g x gl).isSome = true)
    (hd : (Discriminator.forwardTrace d y dl).isSome = true) :
    ((Generator.forwardTrace g x gl).map GenTrace.head = some Head.ill ↔
        ∀ l ∈ gl, l = g.illLabel) ∧
    ((Generator.forwardTrace g x gl).map GenTrace.head = some Head.healthy ↔
        ∃ l ∈ gl, l ≠ g.illLabel) ∧
    ((Discriminator.forwardTrace d y dl).map DiscTrace.head = some Head.ill ↔
        ∀ l ∈ dl, l = d.illLabel) ∧
    ((Discriminator.forwardTrace d y dl).map DiscTrace.head = some Head.healthy ↔
        ∃ l ∈ dl, l ≠ d.illLabel) := by
  obtain ⟨tg, htg⟩ := Option.isSome_iff_exists.1 hg
  obtain ⟨td, htd⟩ := Option.isSome_iff_exists.1 hd
  rw [htg, htd]
  simp only [Option.map_some', Option.some.injEq]
  rw [gen_head_of_trace htg, disc_head_of_trace htd]
  exact ⟨selectBranch_eq_ill_iff _ _, selectBranch_eq_healthy_iff _ _,
    selectBranch_eq_ill_iff _ _, selectBranch_eq_healthy_iff _ _⟩

/-- Witness for C3 at a concrete all-ill generator batch and a concrete
mixed discriminator batch. -/
theorem call_branch_selection_witness :
    (Generator.forwardTrace g4 [2, 8, 8, 1] [1, 1]).isSome = true ∧
    (Discriminator.forwardTrace d4 [2, 64, 64, 1] [1, 0]).isSome = true ∧
    (((Generator.forwardTrace g4 [2, 8, 8, 1] [1, 1]).map GenTrace.head =
          some Head.ill ↔ ∀ l ∈ ([1, 1] : List Int), l = g4.illLabel) ∧
     ((Generator.forwardTrace g4 [2, 8, 8, 1] [1, 1]).map GenTrace.head =
          some Head.healthy ↔ ∃ l ∈ ([1, 1] : List Int), l ≠ g4.illLabel) ∧
     ((Discriminator.forwardTrace d4 [2, 64, 64, 1] [1, 0]).map DiscTrace.head =
          some Head.ill ↔ ∀ l ∈ ([1, 0] : List Int), l = d4.illLabel) ∧
     ((Discriminator.forwardTrace d4 [2, 64, 64, 1] [1, 0]).map DiscTrace.head =
          some Head.healthy ↔ ∃ l ∈ ([1, 0] : List Int), l ≠ d4.illLabel)) :=
  ⟨rfl, rfl,
   call_branch_selection g4 d4 [2, 8, 8, 1] [2, 64, 64, 1] [1, 1] [1, 0] rfl rfl⟩

/-- C1 (code bug): the block returned by `DeScarGANModel.conv` is
`[Conv2D, BatchNorm]` (no activation) when batch normalization is enabled
and `[activation]` alone (no convolution, no normalization) when it is
disabled, because the Python conditional expression binds the whole
`[Conv2D] + [BatchNorm]` to the `if` and `[] + [activation]` to the `else`. -/
theorem conv_block_contents (pid inC f k : Nat) (m : ℚ) (act : Act) :
    (DeScarGANModel.conv false pid inC f k m act).1 = [Layer.activation act] ∧
    (DeScarGANModel.conv true pid inC f k m act).1 =
      [Layer.conv2d pid inC f k false, Layer.batchNorm (pid + 1) m] :=
  ⟨rfl, rfl⟩

/-- C5 counterexample: the discriminator's shared encoder contains nine conv
blocks, not six, and its conv filter widths are not the eight-entry
escalation `nf→2nf→4nf→4nf→8nf→8nf→8nf→16nf` (at `nf = 4`). -/
theorem encoder_six_blocks_cex :
    convBlockCount d4.encoder = 9 ∧ (9 : Nat) ≠ 6 ∧
    convFilters d4.encoder ≠ [4, 8, 16, 16, 32, 32, 32, 64] := by
  decide

/-- C5 (amended): the discriminator's shared encoder consists of exactly nine
conv blocks interleaved with exactly five max-pool downsamples, with filter
widths escalating `nf→2nf→4nf→4nf→8nf→8nf→8nf→8nf→16nf`. -/
theorem encoder_structure (illLabel : Int) (nc nf : Nat) :
    (∀ bn : Bool,
        convBlockCount (Discriminator.init illLabel nc nf bn).encoder = 9 ∧
        poolCount (Discriminator.init illLabel nc nf bn).encoder = 5) ∧
    convFilters (Discriminator.init illLabel nc nf true).encoder =
      [nf, nf * 2, nf * 4, nf * 4, nf * 8, nf * 8, nf * 8, nf * 8, nf * 16] := by
  refine ⟨fun bn => ?_, rfl⟩
  cases bn <;> exact ⟨rfl, rfl⟩

/-- C7: `DeScarGANModel.concat` on two rank-4 tensors fails exactly when the
batch or spatial dimensions differ, and otherwise returns the shape with
batch and spatial dimensions unchanged and the channel counts summed. -/
theorem concat_spec (b1 h1 w1 c1 b2 h2 w2 c2 : Nat) :
    DeScarGANModel.concat [b1, h1, w1, c1] [b2, h2, w2, c2] =
      if b1 = b2 ∧ h1 = h2 ∧ w1 = w2 then some [b1, h1, w1, c1 + c2] else none := by
  by_cases hb : b1 = b2 <;> by_cases hh : h1 = h2 <;> by_cases hw : w1 = w2 <;>
    simp [DeScarGANModel.concat, hb, hh, hw]

/-- C8: each of the four initializer accessors, queried a second time (with
any fresh allocation id available), returns exactly the object the first
access produced and leaves the cache unchanged. -/
theorem initializer_caching (s : InitCache) (f1 f2 : Nat) :
    Generator.kernelInitializerGet f2 (Generator.kernelInitializerGet f1 s).2 =
      ((Generator.kernelInitializerGet f1 s).1,
       (Generator.kernelInitializerGet f1 s).2) ∧
    Generator.biasInitializerGet f2 (Generator.biasInitializerGet f1 s).2 =
      ((Generator.biasInitializerGet f1 s).1,
       (Generator.biasInitializerGet f1 s).2) ∧
    Discriminator.kernelInitializerGet f2 (Discriminator.kernelInitializerGet f1 s).2 =
      ((Discriminator.kernelInitializerGet f1 s).1,
       (Discriminator.kernelInitializerGet f1 s).2) ∧
    Discriminator.biasInitializerGet f2 (Discriminator.biasInitializerGet f1 s).2 =
      ((Discriminator.biasInitializerGet f1 s).1,
       (Discriminator.biasInitializerGet f1 s).2) := by
  obtain ⟨k, bi⟩ := s
  cases k <;> cases bi <;> exact ⟨rfl, rfl, rfl, rfl⟩

/-- C9: in both models the two class-conditioned output heads are built by
identical constructor calls (equal after erasing parameter identity) but
their parameter-id sets are disjoint, for either setting of the batch-norm
flag. -/
theorem heads_param_disjoint (illLabel : Int) (nc nf : Nat) (bn : Bool) :
    (paramIds (Generator.init illLabel nc nf bn).conv7_ill).inter
        (paramIds (Generator.init illLabel nc nf bn).conv7_healty) = [] ∧
    (Generator.init illLabel nc nf bn).conv7_ill.map Child.stripIds =
        (Generator.init illLabel nc nf bn).conv7_healty.map Child.stripIds ∧
    (paramIds (Discriminator.init illLabel nc nf bn).conv_ill).inter
        (paramIds (Discriminator.init illLabel nc nf bn).conv_healty) = [] ∧
    (Discriminator.init illLabel nc nf bn).conv_ill.map Child.stripIds =
        (Discriminator.init illLabel nc nf bn).conv_healty.map Child.stripIds := by
  cases bn <;> exact ⟨rfl, rfl, rfl, rfl⟩

/-- One successful monadic bind step of an `Option` computation. -/
theorem bind_some_step {α β : Type} (a : α) (f : α → Option β) :
    (some a >>= f) = f a := rfl

/-- `tf.concat` on the channel axis of two rank-4 shapes agreeing elsewhere. -/
theorem concat_same4 (b h w c1 c2 : Nat) :
    DeScarGANModel.concat [b, h, w, c1] [b, h, w, c2] =
      some [b, h, w, c1 + c2] := by
  simp [DeScarGANModel.concat]

/-- Shape action of a two-conv-block `Sequential` (batch-norm flavour). -/
theorem applyChildren_two_conv (p1 q1 p2 q2 cin cmid cout k1 k2 b h w : Nat)
    (m1 m2 : ℚ) :
    applyChildren
      [Child.seq [Layer.conv2d p1 cin cmid k1 false, Layer.batchNorm q1 m1],
       Child.seq [Layer.conv2d p2 cmid cout k2 false, Layer.batchNorm q2 m2]]
      [b, h, w, cin] = some [b, h, w, cout] := by
  simp [applyChildren, applyChild, applySeq, applyLayer]

/-- Shape action of a max-pool followed by a two-conv-block `Sequential`. -/
theorem applyChildren_pool_two_conv (p1 q1 p2 q2 cin cmid cout k1 k2 b h w : Nat)
    (m1 m2 : ℚ) :
    applyChildren
      [Child.lay Layer.maxPool2d,
       Child.seq [Layer.conv2d p1 cin cmid k1 false, Layer.batchNorm q1 m1],
       Child.seq [Layer.conv2d p2 cmid cout k2 false, Layer.batchNorm q2 m2]]
      [b, h, w, cin] = some [b, h / 2, w / 2, cout] := by
  simp [applyChildren, applyChild, applySeq, applyLayer]

/-- Shape action of a `deconv` block in its upsampling flavour. -/
theorem applyChildren_deconv (p q cin cout b h w : Nat) (m : ℚ) (act : Act) :
    applyChildren
      [Child.seq [Layer.upSampling2d, Layer.conv2d p cin cout 3 true],
       Child.lay (Layer.batchNorm q m), Child.lay (Layer.activation act)]
      [b, h, w, cin] = some [b, 2 * h, 2 * w, cout] := by
  simp [applyChildren, applyChild, applySeq, applyLayer]

/-- `Generator.init` projections (batch-norm enabled), with the concrete
parameter ids assigned by construction order. -/
theorem gen_illLabel_eq (illLabel : Int) (nc nf : Nat) (bn : Bool) :
    (Generator.init illLabel nc nf bn).illLabel = illLabel := by
  cases bn <;> rfl

/-- `down0` of the generator, batch-norm flavour. -/
theorem gen_down0_eq (illLabel : Int) (nc nf : Nat) :
    (Generator.init illLabel nc nf true).down0 =
      [Child.seq [Layer.conv2d 0 (nc + 2) nf 3 false, Layer.batchNorm 1 (1 / 100)],
       Child.seq [Layer.conv2d 2 nf nf 3 false, Layer.batchNorm 3 (1 / 100)]] := rfl

/-- `down1` of the generator, batch-norm flavour. -/
theorem gen_down1_eq (illLabel : Int) (nc nf : Nat) :
    (Generator.init illLabel nc nf true).down1 =
      [Child.lay Layer.maxPool2d,
       Child.seq [Layer.conv2d 4 nf (nf * 2) 3 false, Layer.batchNorm 5 (1 / 100)],
       Child.seq [Layer.conv2d 6 (nf * 2) (nf * 2) 3 false,
                  Layer.batchNorm 7 (1 / 100)]] := rfl

/-- `down2` of the generator, batch-norm flavour. -/
theorem gen_down2_eq (illLabel : Int) (nc nf : Nat) :
    (Generator.init illLabel nc nf true).down2 =
      [Child.lay Layer.maxPool2d,
       Child.seq [Layer.conv2d 8 (nf * 2) (nf * 4) 3 false,
                  Layer.batchNorm 9 (1 / 100)],
       Child.seq [Layer.conv2d 10 (nf * 4) (nf * 4) 3 false,
                  Layer.batchNorm 11 (1 / 100)]] := rfl

/-- `down3` of the generator, batch-norm flavour. -/
theorem gen_down3_eq (illLabel : Int) (nc nf : Nat) :
    (Generator.init illLabel nc nf true).down3 =
      [Child.lay Layer.maxPool2d,
       Child.seq [Layer.conv2d 12 (nf * 4) (nf * 8) 3 false,
                  Layer.batchNorm 13 (1 / 100)],
       Child.seq [Layer.conv2d 14 (nf * 8) (nf * 8) 3 false,
                  Layer.batchNorm 15 (1 / 100)]] := rfl

/-- `up3` of the generator. -/
theorem gen_up3_eq (illLabel : Int) (nc nf : Nat) :
    (Generator.init illLabel nc nf true).up3 =
      [Child.seq [Layer.upSampling2d, Layer.conv2d 16 (nf * 8) (nf * 4) 3 true],
       Child.lay (Layer.batchNorm 17 (1 / 100)),
       Child.lay (Layer.activation Act.relu)] := rfl

/-- `conv5` of the generator, batch-norm flavour. -/
theorem gen_conv5_eq (illLabel : Int) (nc nf : Nat) :
    (Generator.init illLabel nc nf true).conv5 =
      [Child.seq [Layer.conv2d 18 (nf * 8) (nf * 4) 3 false,
                  Layer.batchNorm 19 (1 / 100)],
       Child.seq [Layer.conv2d 20 (nf * 4) (nf * 4) 3 false,
                  Layer.batchNorm 21 (1 / 100)]] := rfl

/-- `up2` of the generator. -/
theorem gen_up2_eq (illLabel : Int) (nc nf : Nat) :
    (Generator.init illLabel nc nf true).up2 =
      [Child.seq [Layer.upSampling2d, Layer.conv2d 22 (nf * 4) (nf * 2) 3 true],
       Child.lay (Layer.batchNorm 23 (1 / 100)),
       Child.lay (Layer.activation Act.relu)] := rfl

/-- `conv6` of the generator, batch-norm flavour. -/
theorem gen_conv6_eq (illLabel : Int) (nc nf : Nat) :
    (Generator.init illLabel nc nf true).conv6 =
      [Child.seq [Layer.conv2d 24 (nf * 4) (nf * 2) 3 false,
                  Layer.batchNorm 25 (1 / 100)],
       Child.seq [Layer.conv2d 26 (nf * 2) (nf * 2) 3 false,
                  Layer.batchNorm 27 (1 / 100)]] := rfl

/-- `up1` of the generator. -/
theorem gen_up1_eq (illLabel : Int) (nc nf : Nat) :
    (Generator.init illLabel nc nf true).up1 =
      [Child.seq [Layer.upSampling2d, Layer.conv2d 28 (nf * 2) nf 3 true],
       Child.lay (Layer.batchNorm 29 (1 / 100)),
       Child.lay (Layer.activation Act.relu)] := rfl

/-- `conv7_ill` of the generator, batch-norm flavour. -/
theorem gen_conv7_ill_eq (illLabel : Int) (nc nf : Nat) :
    (Generator.init illLabel nc nf true).conv7_ill =
      [Child.seq [Layer.conv2d 30 nf nf 3 false, Layer.batchNorm 31 (1 / 100)],
       Child.seq [Layer.conv2d 32 nf nc 3 false, Layer.batchNorm 33 (1 / 100)]] := rfl

/-- `conv7_healty` of the generator, batch-norm flavour. -/
theorem gen_conv7_healty_eq (illLabel : Int) (nc nf : Nat) :
    (Generator.init illLabel nc nf true).conv7_healty =
      [Child.seq [Layer.conv2d 34 nf nf 3 false, Layer.batchNorm 35 (1 / 100)],
       Child.seq [Layer.conv2d 36 nf nc 3 false, Layer.batchNorm 37 (1 / 100)]] := rfl

set_option maxHeartbeats 1600000

/-- With batch normalization enabled, a label batch matching the image batch
and spatial extents divisible by 8, `Generator.call` succeeds and every
intermediate tensor has the expected shape. -/
theorem Generator.trace_spec (illLabel : Int) (nc nf b i j : Nat)
    (label : List Int) (hlen : label.length = b) :
    Generator.forwardTrace (Generator.init illLabel nc nf true)
        [b, 8 * i, 8 * j, nc] label =
      some ⟨[b, 8 * i, 8 * j, nc + 2], [b, 8 * i, 8 * j, nf],
            [b, 4 * i, 4 * j, nf * 2], [b, 2 * i, 2 * j, nf * 4],
            [b, i, j, nf * 8], [b, 2 * i, 2 * j, nf * 4],
            [b, 2 * i, 2 * j, nf * 8], [b, 2 * i, 2 * j, nf * 4],
            [b, 4 * i, 4 * j, nf * 2], [b, 4 * i, 4 * j, nf * 4],
            [b, 4 * i, 4 * j, nf * 2], [b, 8 * i, 8 * j, nf],
            selectBranch illLabel label, [b, 8 * i, 8 * j, nc]⟩ := by
  subst hlen
  have hi1 : 8 * i / 2 = 4 * i := by omega
  have hi2 : 4 * i / 2 = 2 * i := by omega
  have hi3 : 2 * i / 2 = i := by omega
  have hi4 : 2 * (2 * i) = 4 * i := by ring
  have hi5 : 2 * (4 * i) = 8 * i := by ring
  have hj1 : 8 * j / 2 = 4 * j := by omega
  have hj2 : 4 * j / 2 = 2 * j := by omega
  have hj3 : 2 * j / 2 = j := by omega
  have hj4 : 2 * (2 * j) = 4 * j := by ring
  have hj5 : 2 * (4 * j) = 8 * j := by ring
  have hc1 : nf * 4 + nf * 4 = nf * 8 := by ring
  have hc2 : nf * 2 + nf * 2 = nf * 4 := by ring
  cases hsel : selectBranch illLabel label
  · rw [Generator.forwardTrace, gen_illLabel_eq, hsel, gen_down0_eq,
      gen_down1_eq, gen_down2_eq, gen_down3_eq, gen_up3_eq, gen_conv5_eq,
      gen_up2_eq, gen_conv6_eq, gen_up1_eq, gen_conv7_ill_eq,
      gen_conv7_healty_eq, concat_same4]
    simp only [bind_some_step, applyChildren_two_conv,
      applyChildren_pool_two_conv, applyChildren_deconv, concat_same4, hi1,
      hi2, hi3, hi4, hi5, hj1, hj2, hj3, hj4, hj5, hc1, hc2]
    rfl
  · rw [Generator.forwardTrace, gen_illLabel_eq, hsel, gen_down0_eq,
      gen_down1_eq, gen_down2_eq, gen_down3_eq, gen_up3_eq, gen_conv5_eq,
      gen_up2_eq, gen_conv6_eq, gen_up1_eq, gen_conv7_ill_eq,
      gen_conv7_healty_eq, concat_same4]
    simp only [bind_some_step, applyChildren_two_conv,
      applyChildren_pool_two_conv, applyChildren_deconv, concat_same4, hi1,
      hi2, hi3, hi4, hi5, hj1, hj2, hj3, hj4, hj5, hc1, hc2]
    rfl

set_option maxHeartbeats 200000

/-- C4 (amended): with batch normalization enabled (the default), a label
batch matching the image batch, an input whose channel count is the
configured `n_channels` and whose height and width are multiples of 8,
`Generator.call` returns a tensor with the same batch, height and width as
the input and `n_channels` channels.  (For spatial extents that are not
multiples of 8 a successful call can shrink them — see the counterexample —
and with batch normalization disabled the forward pass always fails.) -/
theorem generator_output_shape (illLabel : Int) (nc nf b i j : Nat)
    (label : List Int) (hlen : label.length = b) :
    Generator.callShape (Generator.init illLabel nc nf true)
        [b, 8 * i, 8 * j, nc] label = some [b, 8 * i, 8 * j, nc] := by
  rw [Generator.callShape, Generator.trace_spec illLabel nc nf b i j label hlen]
  rfl

/-- Witness for C4 (amended) at a concrete 8×8 input. -/
theorem generator_output_shape_witness :
    ([1, 0] : List Int).length = 2 ∧
    Generator.callShape (Generator.init 1 1 4 true) [2, 8, 8, 1] [1, 0] =
      some [2, 8, 8, 1] :=
  ⟨rfl, generator_output_shape 1 1 4 2 1 1 [1, 0] rfl⟩

/-- C4 counterexample: on a 9×9 input (batch norm enabled, the default) the
forward pass succeeds but returns an 8×8 image, so a valid input does not
always keep its spatial extents; and with batch normalization disabled the
forward pass fails on a standard 32×32 input, because the C1 precedence bug
leaves the encoder unable to produce the channels the decoder declares. -/
theorem generator_output_shape_cex :
    Generator.callShape (Generator.init 1 1 4 true) [1, 9, 9, 1] [1] =
      some [1, 8, 8, 1] ∧
    (8 : Nat) ≠ 9 ∧
    Generator.callShape (Generator.init 1 1 4 false) [1, 32, 32, 1] [1] =
      none :=
  ⟨rfl, by decide, rfl⟩

/-- C2 counterexample: in a successful forward pass of a concrete generator
(`nf = 4`), the tensor entering the label-selected output head is the third
upsample's output itself, with `nf = 4` channels, and the final output has
`n_channels = 1` channels; the encoder skip that would match this stage
(`input_0`) has 4 channels, and both output heads reject the 8-channel
tensor that the claimed stage-3 concatenation would produce.  So the third
decoder stage contains no skip concatenation and no width-restoring pair of
conv blocks. -/
theorem decoder_skip_cex :
    (Generator.forwardTrace g4 [2, 8, 8, 1] [1, 1]).map
        GenTrace.input_upsampled_1 = some [2, 8, 8, 4] ∧
    (Generator.forwardTrace g4 [2, 8, 8, 1] [1, 1]).map GenTrace.input_0 =
      some [2, 8, 8, 4] ∧
    (Generator.forwardTrace g4 [2, 8, 8, 1] [1, 1]).map GenTrace.out =
      some [2, 8, 8, 1] ∧
    DeScarGANModel.concat [2, 8, 8, 4] [2, 8, 8, 4] = some [2, 8, 8, 8] ∧
    applyChildren g4.conv7_ill [2, 8, 8, 8] = none ∧
    applyChildren g4.conv7_healty [2, 8, 8, 8] = none :=
  ⟨rfl, rfl, rfl, rfl, rfl, rfl⟩

/-- C2 (amended): the generator's decoder has three upsample stages halving
the filter width (8nf→4nf, 4nf→2nf, 2nf→nf); the first two are each followed
by a channel concatenation with the matching encoder skip tensor (doubling
the channels back to 8nf resp. 4nf) and two conv blocks restoring the halved
width, while the third feeds the label-selected output head directly — the
head's input keeps the upsample's `nf` channels, the head maps them to
`n_channels`, and applying a head to the `2nf`-channel tensor a stage-3
concatenation would produce fails. -/
theorem decoder_structure (illLabel : Int) (nc nf b i j : Nat)
    (label : List Int) (hlen : label.length = b) (hnf : 0 < nf) :
    (Generator.forwardTrace (Generator.init illLabel nc nf true)
        [b, 8 * i, 8 * j, nc] label).map
        (fun t => (t.input_2, t.input_upsampled_3, t.cat3, t.input_5,
                   t.input_1, t.input_upsampled_2, t.cat2, t.input_6,
                   t.input_upsampled_1, t.out)) =
      some ([b, 2 * i, 2 * j, nf * 4], [b, 2 * i, 2 * j, nf * 4],
            [b, 2 * i, 2 * j, nf * 4 + nf * 4], [b, 2 * i, 2 * j, nf * 4],
            [b, 4 * i, 4 * j, nf * 2], [b, 4 * i, 4 * j, nf * 2],
            [b, 4 * i, 4 * j, nf * 2 + nf * 2], [b, 4 * i, 4 * j, nf * 2],
            [b, 8 * i, 8 * j, nf], [b, 8 * i, 8 * j, nc]) ∧
    applyChildren (Generator.init illLabel nc nf true).conv7_ill
        [b, 8 * i, 8 * j, nf + nf] = none ∧
    applyChildren (Generator.init illLabel nc nf true).conv7_healty
        [b, 8 * i, 8 * j, nf + nf] = none := by
  have hc1 : nf * 4 + nf * 4 = nf * 8 := by ring
  have hc2 : nf * 2 + nf * 2 = nf * 4 := by ring
  have hne : ¬ (nf + nf = nf) := by omega
  refine ⟨?_, ?_, ?_⟩
  · rw [Generator.trace_spec illLabel nc nf b i j label hlen, hc1, hc2]
    rfl
  · rw [gen_conv7_ill_eq]
    simp [applyChildren, applyChild, applySeq, applyLayer, hne]
  · rw [gen_conv7_healty_eq]
    simp [applyChildren, applyChild, applySeq, applyLayer, hne]

/-- Witness for C2 (amended) at `nf = 4`, batch 2, 8×8 input. -/
theorem decoder_structure_witness :
    ([1, 0] : List Int).length = 2 ∧ 0 < 4 ∧
    ((Generator.forwardTrace (Generator.init 1 1 4 true) [2, 8, 8, 1] [1, 0]).map
        (fun t => (t.input_2, t.input_upsampled_3, t.cat3, t.input_5,
                   t.input_1, t.input_upsampled_2, t.cat2, t.input_6,
                   t.input_upsampled_1, t.out)) =
      some ([2, 2, 2, 16], [2, 2, 2, 16], [2, 2, 2, 16 + 16], [2, 2, 2, 16],
            [2, 4, 4, 8], [2, 4, 4, 8], [2, 4, 4, 8 + 8], [2, 4, 4, 8],
            [2, 8, 8, 4], [2, 8, 8, 1]) ∧
     applyChildren (Generator.init 1 1 4 true).conv7_ill [2, 8, 8, 4 + 4] =
       none ∧
     applyChildren (Generator.init 1 1 4 true).conv7_healty [2, 8, 8, 4 + 4] =
       none) :=
  ⟨rfl, by decide, decoder_structure 1 1 4 2 1 1 [1, 0] rfl (by decide)⟩

/-- C10: for an empty label batch the all-labels-equal predicate is vacuously
true, so the branch dispatch — and with it both `Generator.call` and
`Discriminator.call` — routes through the ill head. -/
theorem empty_batch_routes_ill :
    (∀ illLabel : Int, selectBranch illLabel [] = Head.ill) ∧
    (Generator.forwardTrace g4 [0, 8, 8, 1] []).map GenTrace.head =
      some Head.ill ∧
    (Discriminator.forwardTrace d4 [0, 64, 64, 1] []).map DiscTrace.head =
      some Head.ill :=
  ⟨fun _ => rfl, rfl, rfl⟩

end DeScarGAN
